import Mathlib

/-!
# Verification of the MiddleWare feed-ranking subsystem

Shallow embedding of the feed-ranking and strategy-selection subsystem:
* the Postgres function `get_custom_ranked_feed`
  (supabase/migrations/0002_ranking_function.sql), and
* the Deno edge function `get-feed` (the `serve` handler with its
  `custom` / `third_party` / `chronological` strategies).

Timestamps are modelled as rationals (epoch seconds); SQL `numeric`
values are modelled as rationals; jsonb preference values whose cast
to `numeric` would raise are modelled by an explicit `malformed`
constructor.
-/

namespace Feed

abbrev UserId := Nat
abbrev PostId := Nat

/-- A row of `public.posts` (0001_initial_schema.sql). -/
structure Post where
  id : PostId
  author_id : UserId
  text_content : Option String
  created_at : ℚ
deriving DecidableEq

/-- A row of `public.media`. `type` is the `media_type` enum rendered as text. -/
structure Media where
  post_id : PostId
  type : String
  mux_playback_id : Option String
  storage_path : Option String
  created_at : ℚ
deriving DecidableEq

/-- A row of `public.likes`. -/
structure Like where
  user_id : UserId
  post_id : PostId
deriving DecidableEq

/-- A row of `public.comments`. -/
structure Comment where
  id : Nat
  post_id : PostId
  user_id : UserId
deriving DecidableEq

/-- A row of `public.follows`. -/
structure Follow where
  follower_id : UserId
  followed_id : UserId
deriving DecidableEq

/-- A stored jsonb weight value as seen by `(prefs ->> k)::numeric`:
either a value the cast parses to a numeric, or one on which the cast
raises (swallowed by the surrounding `exception when others` block). -/
inductive WeightVal where
  | valid (q : ℚ)
  | malformed
deriving DecidableEq

/-- The recognized keys of the `preferences` jsonb bag
(`user_feed_preferences.preferences`); a `none` field is an absent key. -/
structure PrefJson where
  algorithm_id : Option String
  like_weight : Option WeightVal
  comment_weight : Option WeightVal
  follower_weight : Option WeightVal
  recency_weight : Option WeightVal
  third_party_endpoint : Option String
deriving DecidableEq

/-- The read-only relational store the subsystem queries. -/
structure DB where
  posts : List Post
  likes : List Like
  comments : List Comment
  follows : List Follow
  media : List Media
  user_feed_preferences : List (UserId × PrefJson)
deriving DecidableEq

/-- `select preferences from user_feed_preferences where user_id = uid`. -/
def prefsOf (db : DB) (uid : UserId) : Option PrefJson :=
  (db.user_feed_preferences.find? (fun r => r.1 == uid)).map (fun r => r.2)

/-- The four resolved weights of `get_custom_ranked_feed`. -/
structure Weights where
  like_weight : ℚ
  comment_weight : ℚ
  follower_weight : ℚ
  recency_weight : ℚ
deriving DecidableEq

/-- The declared defaults of `get_custom_ranked_feed`
(`like_weight := 1.0; comment_weight := 0.5; follower_weight := 1.0;
recency_weight := 1.0`). -/
def defaultWeights : Weights :=
  { like_weight := 1, comment_weight := 1/2, follower_weight := 1, recency_weight := 1 }

/-- One weight-resolution block of `get_custom_ranked_feed`:
`begin w := coalesce((prefs ->> k)::numeric, w); exception when others then null; end`.
Absent key: the cast yields null, `coalesce` keeps the default.
Malformed value: the cast raises, the handler keeps the default. -/
def parseWeight (v : Option WeightVal) (d : ℚ) : ℚ :=
  match v with
  | none => d
  | some (WeightVal.valid q) => q
  | some WeightVal.malformed => d

/-- Weight resolution of `get_custom_ranked_feed`: `prefs` null (no row)
leaves every declared default; otherwise each field is resolved by its
own guarded block. -/
def resolveWeights (prefs : Option PrefJson) : Weights :=
  match prefs with
  | none => defaultWeights
  | some p =>
    { like_weight := parseWeight p.like_weight 1
      comment_weight := parseWeight p.comment_weight (1/2)
      follower_weight := parseWeight p.follower_weight 1
      recency_weight := parseWeight p.recency_weight 1 }

/-- `like_agg`: `count(*)` of likes of a post (`coalesce(la.like_count, 0)`). -/
def like_count (db : DB) (pid : PostId) : Nat :=
  (db.likes.filter (fun l => l.post_id == pid)).length

/-- `comment_agg`: `count(*)` of comments of a post. -/
def comment_count (db : DB) (pid : PostId) : Nat :=
  (db.comments.filter (fun c => c.post_id == pid)).length

/-- `follow_flags`: `exists (select 1 from follows f where f.follower_id =
requesting_user_id and f.followed_id = b.author_id)`. -/
def is_from_followed (db : DB) (uid : UserId) (author : UserId) : Bool :=
  db.follows.any (fun f => f.follower_id == uid && f.followed_id == author)

/-- `extract(epoch from (now() - b.created_at)) / 3600.0`. -/
def hours_since (now created : ℚ) : ℚ := (now - created) / 3600

/-- `(1.0 / (1.0 + extract(epoch from (now() - b.created_at)) / 3600.0))::numeric`. -/
def recency_score (now created : ℚ) : ℚ := 1 / (1 + hours_since now created)

/-- `order by created_at desc` on media rows, as a relation. -/
def MediaDesc (a b : Media) : Prop := b.created_at ≤ a.created_at

instance : DecidableRel MediaDesc := fun a b =>
  inferInstanceAs (Decidable (b.created_at ≤ a.created_at))

/-- `media_one`: the `rn = 1` row of `row_number() over (partition by
post_id order by created_at desc)` — the most recently created
attachment of the post, if any. -/
def media_one (db : DB) (pid : PostId) : Option Media :=
  (List.insertionSort MediaDesc (db.media.filter (fun m => m.post_id == pid))).head?

/-- One result row of `get_custom_ranked_feed` (its `returns table`). -/
structure FeedRow where
  post_id : PostId
  author_id : UserId
  text_content : Option String
  created_at : ℚ
  like_count : Nat
  comment_count : Nat
  is_from_followed : Bool
  recency_score : ℚ
  final_score : ℚ
  media_type : Option String
  mux_playback_id : Option String
  storage_path : Option String
deriving DecidableEq

/-- The `joined` CTE together with the scored `select` of
`get_custom_ranked_feed`, on one post. -/
def scoreRow (db : DB) (uid : UserId) (w : Weights) (now : ℚ) (p : Post) : FeedRow :=
  let lc := like_count db p.id
  let cc := comment_count db p.id
  let ff := is_from_followed db uid p.author_id
  let rs := recency_score now p.created_at
  let mo := media_one db p.id
  { post_id := p.id
    author_id := p.author_id
    text_content := p.text_content
    created_at := p.created_at
    like_count := lc
    comment_count := cc
    is_from_followed := ff
    recency_score := rs
    final_score := w.like_weight * (lc : ℚ) + w.comment_weight * (cc : ℚ)
      + w.follower_weight * (if ff then 1 else 0) + w.recency_weight * rs
    media_type := mo.map (fun m => m.type)
    mux_playback_id := mo.bind (fun m => m.mux_playback_id)
    storage_path := mo.bind (fun m => m.storage_path) }

/-- `order by final_score desc nulls last, created_at desc`, as a relation
on result rows (scores are never null here: every input column of the
score is non-null). -/
def RankLE (a b : FeedRow) : Prop :=
  b.final_score < a.final_score ∨
    (a.final_score = b.final_score ∧ b.created_at ≤ a.created_at)

instance : DecidableRel RankLE := fun x y =>
  inferInstanceAs (Decidable (y.final_score < x.final_score ∨
    (x.final_score = y.final_score ∧ y.created_at ≤ x.created_at)))

instance : IsTotal FeedRow RankLE where
  total a b := by
    rcases lt_trichotomy a.final_score b.final_score with h | h | h
    · exact Or.inr (Or.inl h)
    · rcases le_total a.created_at b.created_at with hc | hc
      · exact Or.inr (Or.inr ⟨h.symm, hc⟩)
      · exact Or.inl (Or.inr ⟨h, hc⟩)
    · exact Or.inl (Or.inl h)

instance : IsTrans FeedRow RankLE where
  trans a b c hab hbc := by
    rcases hab with hab | ⟨hab, hab'⟩
    · rcases hbc with hbc | ⟨hbc, _⟩
      · exact Or.inl (hbc.trans hab)
      · exact Or.inl (lt_of_le_of_lt (le_of_eq hbc.symm) hab)
    · rcases hbc with hbc | ⟨hbc, hbc'⟩
      · exact Or.inl (lt_of_lt_of_le hbc (le_of_eq hab.symm))
      · exact Or.inr ⟨hab.trans hbc, hbc'.trans hab'⟩

/-- All posts scored and sorted by the `order by` of
`get_custom_ranked_feed`, before `limit`/`offset`. -/
def rankedRows (db : DB) (uid : UserId) (w : Weights) (now : ℚ) : List FeedRow :=
  List.insertionSort RankLE (db.posts.map (scoreRow db uid w now))

/-- `limit greatest(p_limit, 0) offset greatest(p_offset, 0)` applied to
the full ordering (`Int.toNat` is exactly `greatest(·, 0)`). -/
def customPage (db : DB) (uid : UserId) (w : Weights) (now : ℚ)
    (p_limit p_offset : Int) : List FeedRow :=
  ((rankedRows db uid w now).drop p_offset.toNat).take p_limit.toNat

/-- `public.get_custom_ranked_feed(requesting_user_id, p_limit, p_offset)`
evaluated at wall-clock time `now` against store `db`. -/
def get_custom_ranked_feed (db : DB) (now : ℚ) (requesting_user_id : UserId)
    (p_limit p_offset : Int) : List FeedRow :=
  customPage db requesting_user_id (resolveWeights (prefsOf db requesting_user_id))
    now p_limit p_offset

/-! ## The `get-feed` edge function (Deno `serve` handler) -/

/-- `order by created_at desc` on posts, as a relation. -/
def CreatedDesc (a b : Post) : Prop := b.created_at ≤ a.created_at

instance : DecidableRel CreatedDesc := fun x y =>
  inferInstanceAs (Decidable (y.created_at ≤ x.created_at))

instance : IsTotal Post CreatedDesc where
  total a b := le_total b.created_at a.created_at

instance : IsTrans Post CreatedDesc where
  trans _ _ _ hab hbc := hbc.trans hab

/-- One attachment as selected by the chronological strategy's
`media:media(type, mux_playback_id, storage_path)` join. -/
structure ChronoMedia where
  type : String
  mux_playback_id : Option String
  storage_path : Option String
deriving DecidableEq

/-- One row of the chronological strategy's select
(`id, author_id, text_content, created_at, media:media(...)`). -/
structure ChronoRow where
  id : PostId
  author_id : UserId
  text_content : Option String
  created_at : ℚ
  media : List ChronoMedia
deriving DecidableEq

/-- All posts in `created_at` descending order, each joined with all of
its attachments. -/
def chronoOrder (db : DB) : List ChronoRow :=
  (List.insertionSort CreatedDesc db.posts).map (fun p =>
    { id := p.id
      author_id := p.author_id
      text_content := p.text_content
      created_at := p.created_at
      media := (db.media.filter (fun m => m.post_id == p.id)).map
        (fun m => { type := m.type
                    mux_playback_id := m.mux_playback_id
                    storage_path := m.storage_path }) })

/-- The chronological strategy's window:
`.range(offset, Math.max(offset + limit - 1, offset))`, an INCLUSIVE
row range `[from, to]` in PostgREST — rows `from` through `to`. -/
def chronological (db : DB) (limit offset : Int) : List ChronoRow :=
  let toIdx := max (offset + limit - 1) offset
  ((chronoOrder db).take (toIdx.toNat + 1)).drop offset.toNat

/-- The request as seen by the handler: the parsed `limit`/`offset` query
parameters (absent = `none`), whether `req.json()` succeeded, the numeric
`limit`/`offset` fields of the body (`none` when absent or not a number),
the HTTP method, and the identity resolved from the bearer token
(`none` when `auth.getUser` fails). -/
structure FeedRequest where
  method : String
  qLimit : Option Int
  qOffset : Option Int
  bodyOk : Bool
  bodyLimit : Option Int
  bodyOffset : Option Int
  authUser : Option UserId
deriving DecidableEq

/-- `let limit = Math.max(parseInt(url.searchParams.get("limit") ?? "20", 10), 0)`,
then, when the method is not GET and the body parses, the override
`if (typeof body?.limit === 'number') limit = Math.max(body.limit, 0)`. -/
def effectiveLimit (r : FeedRequest) : Int :=
  let base := max (r.qLimit.getD 20) 0
  if r.method ≠ "GET" ∧ r.bodyOk = true then
    match r.bodyLimit with
    | some n => max n 0
    | none => base
  else base

/-- Same as `effectiveLimit` for `offset`, whose query default is `"0"`. -/
def effectiveOffset (r : FeedRequest) : Int :=
  let base := max (r.qOffset.getD 0) 0
  if r.method ≠ "GET" ∧ r.bodyOk = true then
    match r.bodyOffset with
    | some n => max n 0
    | none => base
  else base

/-- Outcome of the handler's read of `user_feed_preferences`
(`.select("preferences").eq("user_id", userId).maybeSingle()`): either a
successful read (with the row, if one exists) or an error, on which
`data` is null. -/
inductive PrefReadResult where
  | ok (row : Option PrefJson)
  | readError (msg : String)
deriving DecidableEq

/-- `const preferences = (prefRow?.preferences ...) ?? {}`. -/
def emptyPrefs : PrefJson :=
  { algorithm_id := none, like_weight := none, comment_weight := none,
    follower_weight := none, recency_weight := none, third_party_endpoint := none }

def handlerPrefs (pr : PrefReadResult) : PrefJson :=
  match pr with
  | PrefReadResult.ok (some p) => p
  | PrefReadResult.ok none => emptyPrefs
  | PrefReadResult.readError _ => emptyPrefs

/-- `const algorithmId = (preferences["algorithm_id"] as string) ?? "chronological"`. -/
def resolveAlgorithmId (p : PrefJson) : String :=
  p.algorithm_id.getD "chronological"

/-- Outcome of `fetch(tpUrl)`: a success response with a JSON body, a
response with `resp.ok` false, or a thrown transport error. -/
inductive FetchOutcome where
  | ok (body : String)
  | httpError (status : Nat)
  | networkError
deriving DecidableEq

/-- The fallible externals of one request, fixed per request: the store,
the wall-clock time, the result of the preference read, whether the
`custom` rpc or the chronological query errors, which strings
`new URL(·)` accepts, and the third-party fetch outcome. -/
structure Env where
  db : DB
  now : ℚ
  prefRead : PrefReadResult
  rpcError : Option String
  chronoError : Option String
  urlOk : String → Bool
  fetch : FetchOutcome

/-- A success payload: scored rows from the `custom` rpc, plain rows from
the chronological query, or the third-party body passed through. -/
inductive Payload where
  | ranked (rows : List FeedRow)
  | chrono (rows : List ChronoRow)
  | raw (body : String)
deriving DecidableEq

/-- The handler's HTTP response: `{posts, algorithm}` with status 200, or
`{error: kind}` with an error status. -/
inductive Response where
  | success (algorithm : String) (payload : Payload)
  | failure (status : Nat) (errorKind : String)
deriving DecidableEq

def Response.status : Response → Nat
  | Response.success _ _ => 200
  | Response.failure s _ => s

/-- The own keys of the `strategies` object literal. -/
def strategyKeys : List String := ["custom", "third_party", "chronological"]

/-- The enumerable-or-not own properties every object literal inherits
from `Object.prototype`; `strategies[k]` for such a `k` is a truthy
non-strategy value, so `?? strategies["chronological"]` does NOT fire. -/
def objectPrototypeKeys : List String :=
  ["constructor", "hasOwnProperty", "isPrototypeOf", "propertyIsEnumerable",
   "toLocaleString", "toString", "valueOf", "__proto__",
   "__defineGetter__", "__defineSetter__", "__lookupGetter__", "__lookupSetter__"]

/-- What `exec` ends up being. `inherited` is a member found on
`Object.prototype`; invoking it does not produce a `Response` (it throws
or returns a non-Response), which surfaces as the catch-all 500. -/
inductive StrategyChoice where
  | custom
  | third_party
  | chronological
  | inherited
deriving DecidableEq

/-- JS property lookup `strategies[algorithmId]` on the object literal:
own keys first, then the `Object.prototype` members. -/
def lookupStrategy (id : String) : Option StrategyChoice :=
  if id = "custom" then some StrategyChoice.custom
  else if id = "third_party" then some StrategyChoice.third_party
  else if id = "chronological" then some StrategyChoice.chronological
  else if id ∈ objectPrototypeKeys then some StrategyChoice.inherited
  else none

/-- `const exec = strategies[algorithmId] ?? strategies["chronological"]`. -/
def dispatch (id : String) : StrategyChoice :=
  (lookupStrategy id).getD StrategyChoice.chronological

/-- The `third_party` strategy body. Returns the response and how many
times `fetch` was invoked. `new URL(endpoint)` throwing lands in the
strategy's own catch (status 500) before any fetch. -/
def thirdPartyRun (env : Env) (prefs : PrefJson) (uid : UserId)
    (limit offset : Int) : Response × Nat :=
  let endpoint := prefs.third_party_endpoint.getD ""
  if endpoint = "" then
    (Response.failure 400 "missing_third_party_endpoint", 0)
  else if env.urlOk endpoint = false then
    (Response.failure 500 "third_party_exception", 0)
  else
    match env.fetch with
    | FetchOutcome.ok body => (Response.success "third_party" (Payload.raw body), 1)
    | FetchOutcome.httpError _ => (Response.failure 502 "third_party_failed", 1)
    | FetchOutcome.networkError => (Response.failure 500 "third_party_exception", 1)

/-- What one request produces: the response, the number of outbound
fetches, and the `console.error` log lines. -/
structure HandlerResult where
  response : Response
  fetchCalls : Nat
  logs : List String
deriving DecidableEq

/-- The whole `serve` handler. -/
def handle (env : Env) (req : FeedRequest) : HandlerResult :=
  match req.authUser with
  | none =>
    { response := Response.failure 401 "Unauthorized", fetchCalls := 0, logs := [] }
  | some uid =>
    let limit := effectiveLimit req
    let offset := effectiveOffset req
    let prefLogs : List String :=
      match env.prefRead with
      | PrefReadResult.readError m => ["preferences error: " ++ m]
      | _ => []
    let prefs := handlerPrefs env.prefRead
    let algorithmId := resolveAlgorithmId prefs
    match dispatch algorithmId with
    | StrategyChoice.custom =>
      match env.rpcError with
      | some m =>
        { response := Response.failure 500 "ranking_failed", fetchCalls := 0,
          logs := prefLogs ++ ["rpc error: " ++ m] }
      | none =>
        { response := Response.success "custom"
            (Payload.ranked (get_custom_ranked_feed env.db env.now uid limit offset)),
          fetchCalls := 0, logs := prefLogs }
    | StrategyChoice.third_party =>
      let r := thirdPartyRun env prefs uid limit offset
      { response := r.1, fetchCalls := r.2,
        logs := prefLogs ++
          (match r.1 with
           | Response.failure 500 _ => ["third_party exception"]
           | _ => []) }
    | StrategyChoice.chronological =>
      match env.chronoError with
      | some m =>
        { response := Response.failure 500 "chronological_failed", fetchCalls := 0,
          logs := prefLogs ++ ["chronological error: " ++ m] }
      | none =>
        { response := Response.success "chronological"
            (Payload.chrono (chronological env.db limit offset)),
          fetchCalls := 0, logs := prefLogs }
    | StrategyChoice.inherited =>
      { response := Response.failure 500 "internal_server_error", fetchCalls := 0,
        logs := prefLogs ++ ["caught exception"] }

/-! ## Shared lemmas -/

theorem mem_rankedRows {db : DB} {uid : UserId} {w : Weights} {now : ℚ} {r : FeedRow} :
    r ∈ rankedRows db uid w now ↔ r ∈ db.posts.map (scoreRow db uid w now) :=
  (List.perm_insertionSort RankLE _).mem_iff

theorem rankedRows_perm (db : DB) (uid : UserId) (w : Weights) (now : ℚ) :
    List.Perm (rankedRows db uid w now) (db.posts.map (scoreRow db uid w now)) :=
  List.perm_insertionSort RankLE _

theorem rankedRows_sorted (db : DB) (uid : UserId) (w : Weights) (now : ℚ) :
    List.Sorted RankLE (rankedRows db uid w now) :=
  List.sorted_insertionSort RankLE _

theorem take_add_split {α : Type _} (l : List α) (m n : Nat) :
    l.take (m + n) = l.take m ++ (l.drop m).take n := by
  rw [List.take_drop]
  conv_lhs => rw [← List.take_append_drop m (l.take (m + n))]
  congr 1
  rw [List.take_take]
  exact congrArg l.take (Nat.min_eq_left (Nat.le_add_right m n))

/-! ## Concrete inputs used by witnesses and scenarios -/

/-- §8 scenario 7 of the spec: requester 100; P1 (id 1) has 3 likes,
unfollowed author, created one hour before evaluation; P2 (id 2) has one
like, followed author, created at the evaluation instant. Evaluation
time 3600 (epoch seconds). -/
def c1db : DB :=
  { posts := [⟨1, 11, none, 0⟩, ⟨2, 12, none, 3600⟩],
    likes := [⟨21, 1⟩, ⟨22, 1⟩, ⟨23, 1⟩, ⟨21, 2⟩],
    comments := [],
    follows := [⟨100, 12⟩],
    media := [],
    user_feed_preferences := [] }

/-- A one-post store, used to instantiate universally quantified theorems. -/
def oneDB : DB :=
  { posts := [⟨1, 2, none, 0⟩], likes := [], comments := [], follows := [],
    media := [], user_feed_preferences := [] }

def oneRow : FeedRow := scoreRow oneDB 5 defaultWeights 0 ⟨1, 2, none, 0⟩

/-! ## C1 -/

/-- C1: every row returned by the custom strategy has
`final_score = like_weight·like_count + comment_weight·comment_count +
follower_weight·(1 if is_from_followed else 0) + recency_weight·recency_score`;
and in the concrete default-weight scenario the post with 3 likes,
unfollowed author and recency 1/2 scores 7/2, the post with 1 like,
followed author and recency 1 scores 3, and the former is ordered first. -/
theorem final_score_formula_and_scenario :
    (∀ (db : DB) (uid : UserId) (w : Weights) (now : ℚ) (r : FeedRow),
      r ∈ rankedRows db uid w now →
      r.final_score = w.like_weight * (r.like_count : ℚ)
        + w.comment_weight * (r.comment_count : ℚ)
        + w.follower_weight * (if r.is_from_followed then 1 else 0)
        + w.recency_weight * r.recency_score)
    ∧ (get_custom_ranked_feed c1db 3600 100 20 0).map FeedRow.post_id = [1, 2]
    ∧ (get_custom_ranked_feed c1db 3600 100 20 0).map FeedRow.final_score = [7/2, 3]
    ∧ (get_custom_ranked_feed c1db 3600 100 20 0).map FeedRow.recency_score = [1/2, 1] := by
  refine ⟨?_, ?_, ?_, ?_⟩
  · intro db uid w now r hr
    obtain ⟨p, _, rfl⟩ := List.mem_map.mp (mem_rankedRows.mp hr)
    rfl
  all_goals
    norm_num [get_custom_ranked_feed, customPage, rankedRows, scoreRow, prefsOf,
      resolveWeights, defaultWeights, like_count, comment_count, is_from_followed,
      recency_score, hours_since, media_one, c1db, RankLE, List.insertionSort,
      List.orderedInsert, List.filter_cons, List.find?_cons, List.any_cons]

theorem final_score_formula_and_scenario_witness :
    oneRow ∈ rankedRows oneDB 5 defaultWeights 0
    ∧ oneRow.final_score = defaultWeights.like_weight * (oneRow.like_count : ℚ)
        + defaultWeights.comment_weight * (oneRow.comment_count : ℚ)
        + defaultWeights.follower_weight * (if oneRow.is_from_followed then 1 else 0)
        + defaultWeights.recency_weight * oneRow.recency_score := by
  have hm : oneRow ∈ rankedRows oneDB 5 defaultWeights 0 := by
    simp [rankedRows, oneDB, oneRow]
  exact ⟨hm, final_score_formula_and_scenario.1 oneDB 5 defaultWeights 0 oneRow hm⟩

/-! ## C4 -/

/-- C4: the recency score is `1 / (1 + hours_since_created)` at wall-clock
evaluation time; for a post whose age is nonnegative it lies strictly in
(0, 1], equals 1 exactly at age zero, and strictly decreases with age;
every returned row carries exactly this score of its own `created_at`. -/
theorem recency_score_bounds (now c : ℚ) (h : c ≤ now) :
    recency_score now c = 1 / (1 + hours_since now c)
    ∧ 0 < recency_score now c
    ∧ recency_score now c ≤ 1
    ∧ (recency_score now c = 1 ↔ c = now)
    ∧ (∀ c2 : ℚ, c2 ≤ now → c < c2 → recency_score now c < recency_score now c2)
    ∧ (∀ (db : DB) (uid : UserId) (w : Weights) (r : FeedRow),
        r ∈ rankedRows db uid w now → r.recency_score = recency_score now r.created_at) := by
  have h0 : 0 ≤ (now - c) / 3600 := div_nonneg (by linarith) (by norm_num)
  have hpos : 0 < 1 + (now - c) / 3600 := by linarith
  refine ⟨rfl, ?_, ?_, ?_, ?_, ?_⟩
  · exact one_div_pos.mpr hpos
  · exact (div_le_one hpos).mpr (by linarith)
  · unfold recency_score hours_since
    rw [div_eq_one_iff_eq hpos.ne']
    constructor
    · intro h1
      have : (now - c) / 3600 = 0 := by linarith
      have := (div_eq_zero_iff.mp this).resolve_right (by norm_num)
      linarith
    · intro h1
      rw [h1]
      norm_num
  · intro c2 h2 hlt
    unfold recency_score hours_since
    have h02 : 0 ≤ (now - c2) / 3600 := div_nonneg (by linarith) (by norm_num)
    have hpos2 : 0 < 1 + (now - c2) / 3600 := by linarith
    apply one_div_lt_one_div_of_lt hpos2
    have : (now - c2) / 3600 < (now - c) / 3600 :=
      (div_lt_div_iff_of_pos_right (by norm_num)).mpr (by linarith)
    linarith
  · intro db uid w r hr
    obtain ⟨p, _, rfl⟩ := List.mem_map.mp (mem_rankedRows.mp hr)
    rfl

theorem recency_score_bounds_witness :
    (0 : ℚ) ≤ 3600
    ∧ (recency_score 3600 0 = 1 / (1 + hours_since 3600 0)
       ∧ 0 < recency_score 3600 0
       ∧ recency_score 3600 0 ≤ 1
       ∧ (recency_score 3600 0 = 1 ↔ (0 : ℚ) = 3600)
       ∧ (∀ c2 : ℚ, c2 ≤ 3600 → 0 < c2 → recency_score 3600 0 < recency_score 3600 c2)
       ∧ (∀ (db : DB) (uid : UserId) (w : Weights) (r : FeedRow),
           r ∈ rankedRows db uid w 3600 → r.recency_score = recency_score 3600 r.created_at)) :=
  ⟨by norm_num, recency_score_bounds 3600 0 (by norm_num)⟩

/-! ## C2 -/

/-- The claimed ordering/pagination behaviour of the custom strategy:
the full ranking is sorted by final_score descending with created_at
descending tie-break, contains every post exactly once, the strictness
of the order under unique timestamps, and the page windows
(offset 0, limit 10) / (offset 10, limit 10) are disjoint with union the
first 20 rows. -/
def OrderingPagination (db : DB) (uid : UserId) (w : Weights) (now : ℚ) : Prop :=
  List.Sorted RankLE (rankedRows db uid w now)
  ∧ List.Perm (rankedRows db uid w now) (db.posts.map (scoreRow db uid w now))
  ∧ ((db.posts.map Post.created_at).Nodup →
      (rankedRows db uid w now).Pairwise (fun a b =>
        b.final_score < a.final_score
        ∨ (a.final_score = b.final_score ∧ b.created_at < a.created_at)))
  ∧ (∀ L O : Int, customPage db uid w now L O
      = ((rankedRows db uid w now).drop O.toNat).take L.toNat)
  ∧ List.Disjoint ((customPage db uid w now 10 0).map FeedRow.post_id)
      ((customPage db uid w now 10 10).map FeedRow.post_id)
  ∧ (customPage db uid w now 10 0).map FeedRow.post_id
      ++ (customPage db uid w now 10 10).map FeedRow.post_id
      = ((rankedRows db uid w now).take 20).map FeedRow.post_id

/-- C2: the custom strategy sorts all posts by final_score descending,
ties broken by created_at descending (strict when timestamps are unique),
a window (offset, limit) yields exactly rows [offset, offset+limit) of
that ordering, and the pages (0,10) and (10,10) are disjoint with union
the first 20 rows of the full ordering. -/
theorem custom_ordering_and_pages (db : DB) (uid : UserId) (w : Weights) (now : ℚ)
    (hid : (db.posts.map Post.id).Nodup) : OrderingPagination db uid w now := by
  have hperm := rankedRows_perm db uid w now
  have hsorted := rankedRows_sorted db uid w now
  have hndid : ((rankedRows db uid w now).map FeedRow.post_id).Nodup := by
    have h2 : List.Perm ((rankedRows db uid w now).map FeedRow.post_id)
        ((db.posts.map (scoreRow db uid w now)).map FeedRow.post_id) := hperm.map _
    rw [h2.nodup_iff, List.map_map]
    exact hid
  have e1 : customPage db uid w now 10 0 = (rankedRows db uid w now).take 10 := by
    simp [customPage]
  have e2 : customPage db uid w now 10 10
      = ((rankedRows db uid w now).drop 10).take 10 := by
    simp [customPage]
  have e3 : (rankedRows db uid w now).take 20
      = (rankedRows db uid w now).take 10 ++ ((rankedRows db uid w now).drop 10).take 10 := by
    have h := take_add_split (rankedRows db uid w now) 10 10
    norm_num at h
    exact h
  have hnd20 : (((rankedRows db uid w now).take 20).map FeedRow.post_id).Nodup := by
    rw [List.map_take]
    exact List.Nodup.sublist (List.take_sublist _ _) hndid
  refine ⟨hsorted, hperm, ?_, fun L O => rfl, ?_, ?_⟩
  · intro hts
    have h1 : (db.posts.map (scoreRow db uid w now)).Pairwise
        (fun a b => a.created_at ≠ b.created_at) :=
      List.pairwise_map.mpr (List.pairwise_map.mp hts)
    have h2 : (rankedRows db uid w now).Pairwise
        (fun a b => a.created_at ≠ b.created_at) :=
      (hperm.pairwise_iff (fun hxy => Ne.symm hxy)).mpr h1
    refine (hsorted.and h2).imp ?_
    intro a b hab
    rcases hab with ⟨hle | ⟨heq, hble⟩, hne⟩
    · exact Or.inl hle
    · exact Or.inr ⟨heq, lt_of_le_of_ne hble (fun hc => hne hc.symm)⟩
  · rw [e3, List.map_append] at hnd20
    rw [e1, e2]
    exact (List.nodup_append.mp hnd20).2.2
  · rw [e1, e2, e3, List.map_append]

def c2db : DB :=
  { posts := [⟨1, 11, none, 0⟩, ⟨2, 12, none, 3600⟩],
    likes := [], comments := [], follows := [],
    media := [], user_feed_preferences := [] }

theorem custom_ordering_and_pages_witness :
    (c2db.posts.map Post.id).Nodup ∧ OrderingPagination c2db 100 defaultWeights 3600 :=
  ⟨by decide, custom_ordering_and_pages c2db 100 defaultWeights 3600 (by decide)⟩

/-! ## C3 -/

/-- C3: preference resolution never fails the request — with no
preference record or a failed preference read, algorithm_id resolves to
"chronological" and the weights to the defaults (1, 1/2, 1, 1); a read
failure is logged and the response is the same as on a clean read of no
record. -/
theorem preference_resolution_fail_soft :
    (∀ m, resolveAlgorithmId (handlerPrefs (PrefReadResult.readError m)) = "chronological")
    ∧ resolveAlgorithmId (handlerPrefs (PrefReadResult.ok none)) = "chronological"
    ∧ resolveWeights none
        = { like_weight := 1, comment_weight := 1/2, follower_weight := 1, recency_weight := 1 }
    ∧ (∀ (db : DB) (uid : UserId), prefsOf db uid = none →
        resolveWeights (prefsOf db uid) = defaultWeights)
    ∧ (∀ (env : Env) (req : FeedRequest) (uid : UserId) (m : String),
        req.authUser = some uid → env.prefRead = PrefReadResult.readError m →
        ("preferences error: " ++ m) ∈ (handle env req).logs
        ∧ (handle env req).response
            = (handle { env with prefRead := PrefReadResult.ok none } req).response) := by
  refine ⟨fun m => rfl, rfl, rfl, ?_, ?_⟩
  · intro db uid h
    rw [h]
    rfl
  · intro env req uid m hauth hpref
    constructor
    · simp only [handle, hauth, hpref]
      cases env.chronoError <;>
        simp [handlerPrefs, resolveAlgorithmId, emptyPrefs, dispatch, lookupStrategy,
          objectPrototypeKeys]
    · simp only [handle, hauth, hpref]
      cases h : env.chronoError <;>
        simp [handlerPrefs, resolveAlgorithmId, emptyPrefs, dispatch, lookupStrategy,
          objectPrototypeKeys, h]

def env3 : Env :=
  { db := oneDB, now := 0, prefRead := PrefReadResult.readError "boom",
    rpcError := none, chronoError := none, urlOk := fun _ => true,
    fetch := FetchOutcome.ok "" }

def req3 : FeedRequest :=
  { method := "GET", qLimit := none, qOffset := none, bodyOk := false,
    bodyLimit := none, bodyOffset := none, authUser := some 5 }

theorem preference_resolution_fail_soft_witness :
    req3.authUser = some 5 ∧ env3.prefRead = PrefReadResult.readError "boom"
    ∧ prefsOf oneDB 5 = none
    ∧ resolveWeights (prefsOf oneDB 5) = defaultWeights
    ∧ ("preferences error: " ++ "boom") ∈ (handle env3 req3).logs
    ∧ (handle env3 req3).response
        = (handle { env3 with prefRead := PrefReadResult.ok none } req3).response := by
  have h4 := preference_resolution_fail_soft.2.2.2.1 oneDB 5 rfl
  have h5 := preference_resolution_fail_soft.2.2.2.2 env3 req3 5 "boom" rfl rfl
  exact ⟨rfl, rfl, rfl, h4, h5.1, h5.2⟩

/-! ## C5 -/

/-- For limit 0 the chronological window `.range(offset,
max(offset+limit-1, offset))` is the INCLUSIVE range [0, 0]: one row. -/
def c5db : DB :=
  { posts := [⟨1, 2, none, 0⟩], likes := [], comments := [], follows := [],
    media := [], user_feed_preferences := [] }

/-- C5: negative limit and offset inputs are clamped to zero by the
handler and by the SQL function, and the custom strategy honours
`limit 0`; but the chronological strategy at limit 0 returns ONE row
from a non-empty store — more than the requested L = 0 items — because
`.range(offset, Math.max(offset + limit - 1, offset))` is an inclusive
row range. -/
def req5a : FeedRequest :=
  { method := "GET", qLimit := some (-7), qOffset := none, bodyOk := false,
    bodyLimit := none, bodyOffset := none, authUser := some 9 }

def req5b : FeedRequest :=
  { method := "GET", qLimit := none, qOffset := some (-3), bodyOk := false,
    bodyLimit := none, bodyOffset := none, authUser := some 9 }

theorem chronological_limit_zero_excess :
    effectiveLimit req5a = 0
    ∧ effectiveOffset req5b = 0
    ∧ get_custom_ranked_feed c5db 0 9 0 0 = []
    ∧ get_custom_ranked_feed c5db 0 9 (-7) (-3) = []
    ∧ (chronological c5db 0 0).length = 1 := by
  refine ⟨by decide, by decide, rfl, rfl, by decide⟩

/-! ## C6 -/

def c6prefs : PrefJson :=
  { algorithm_id := some "hasOwnProperty", like_weight := none,
    comment_weight := none, follower_weight := none, recency_weight := none,
    third_party_endpoint := none }

def env6 : Env :=
  { db := c5db, now := 0, prefRead := PrefReadResult.ok (some c6prefs),
    rpcError := none, chronoError := none, urlOk := fun _ => true,
    fetch := FetchOutcome.ok "" }

def req6 : FeedRequest :=
  { method := "GET", qLimit := none, qOffset := none, bodyOk := false,
    bodyLimit := none, bodyOffset := none, authUser := some 1 }

/-- C6: unrecognized algorithm_id values that happen to be inherited
members of `Object.prototype` (here "hasOwnProperty") are found by
`strategies[algorithmId]`, so the `?? strategies["chronological"]`
fallback does not fire; invoking the inherited member throws and the
request ends as 500 internal_server_error instead of the chronological
result. An ordinary unknown id ("nonexistent") does fall back. -/
theorem dispatch_inherited_key_bug :
    dispatch "hasOwnProperty" = StrategyChoice.inherited
    ∧ dispatch "nonexistent" = StrategyChoice.chronological
    ∧ (handle env6 req6).response = Response.failure 500 "internal_server_error"
    ∧ (handle { env6 with prefRead := PrefReadResult.ok none } req6).response
        = Response.success "chronological" (Payload.chrono (chronological c5db 20 0))
    ∧ (handle env6 req6).response
        ≠ (handle { env6 with prefRead := PrefReadResult.ok none } req6).response := by
  refine ⟨by decide, by decide, by decide, by decide, by decide⟩

/-! ## C7 -/

def prefs7 : PrefJson :=
  { algorithm_id := some "third_party", like_weight := none, comment_weight := none,
    follower_weight := none, recency_weight := none,
    third_party_endpoint := some "not a url" }

def env7 : Env :=
  { db := c5db, now := 0, prefRead := PrefReadResult.ok (some prefs7),
    rpcError := none, chronoError := none, urlOk := fun _ => false,
    fetch := FetchOutcome.ok "" }

/-- Refutes C7 as stated: with a malformed (non-empty) endpoint the
`new URL(endpoint)` throw lands in the strategy's catch, producing
status 500 ("third_party_exception"), not the claimed 400 — though no
fetch is issued. -/
theorem third_party_malformed_not_400 :
    env7.urlOk "not a url" = false
    ∧ (thirdPartyRun env7 prefs7 1 20 0).1.status = 500
    ∧ (thirdPartyRun env7 prefs7 1 20 0).2 = 0
    ∧ (thirdPartyRun env7 prefs7 1 20 0).1.status ≠ 400 := by
  refine ⟨rfl, by decide, by decide, by decide⟩

/-- The actual error behaviour of the third_party strategy. -/
def ThirdPartyBehavior (env : Env) (prefs : PrefJson) (uid : UserId) (L O : Int) : Prop :=
  ((prefs.third_party_endpoint = none ∨ prefs.third_party_endpoint = some "") →
      thirdPartyRun env prefs uid L O
        = (Response.failure 400 "missing_third_party_endpoint", 0))
  ∧ (∀ s, prefs.third_party_endpoint = some s → s ≠ "" → env.urlOk s = false →
      thirdPartyRun env prefs uid L O
        = (Response.failure 500 "third_party_exception", 0))
  ∧ (∀ s st, prefs.third_party_endpoint = some s → s ≠ "" → env.urlOk s = true →
      env.fetch = FetchOutcome.httpError st →
      thirdPartyRun env prefs uid L O = (Response.failure 502 "third_party_failed", 1))
  ∧ (∀ s, prefs.third_party_endpoint = some s → s ≠ "" → env.urlOk s = true →
      env.fetch = FetchOutcome.networkError →
      thirdPartyRun env prefs uid L O
        = (Response.failure 500 "third_party_exception", 1))
  ∧ (thirdPartyRun env prefs uid L O).2 ≤ 1

/-- C7 (amended): an absent or empty endpoint is a 400 configuration
error with no network call; a malformed endpoint is a 500
(transport-exception path) with no network call; a non-success upstream
status is 502; a transport exception is 500; and fetch is invoked at
most once — never retried. -/
theorem third_party_config_and_upstream (env : Env) (prefs : PrefJson) (uid : UserId)
    (L O : Int) : ThirdPartyBehavior env prefs uid L O := by
  refine ⟨?_, ?_, ?_, ?_, ?_⟩
  · rintro (h | h) <;> simp [thirdPartyRun, h]
  · intro s hs hne hurl
    simp [thirdPartyRun, hs, Option.getD, hne, hurl]
  · intro s st hs hne hurl hf
    simp [thirdPartyRun, hs, Option.getD, hne, hurl, hf]
  · intro s hs hne hurl hf
    simp [thirdPartyRun, hs, Option.getD, hne, hurl, hf]
  · unfold thirdPartyRun
    by_cases h1 : prefs.third_party_endpoint.getD "" = ""
    · simp [h1]
    · by_cases h2 : env.urlOk (prefs.third_party_endpoint.getD "") = false
      · simp [h1, h2]
      · cases env.fetch <;> simp [h1, h2]

def prefsNoEp : PrefJson :=
  { algorithm_id := some "third_party", like_weight := none, comment_weight := none,
    follower_weight := none, recency_weight := none, third_party_endpoint := none }

def prefsEp : PrefJson :=
  { algorithm_id := some "third_party", like_weight := none, comment_weight := none,
    follower_weight := none, recency_weight := none,
    third_party_endpoint := some "https://example.com/rank" }

def envHttp502 : Env :=
  { db := c5db, now := 0, prefRead := PrefReadResult.ok (some prefsEp),
    rpcError := none, chronoError := none, urlOk := fun _ => true,
    fetch := FetchOutcome.httpError 503 }

def envNetErr : Env :=
  { db := c5db, now := 0, prefRead := PrefReadResult.ok (some prefsEp),
    rpcError := none, chronoError := none, urlOk := fun _ => true,
    fetch := FetchOutcome.networkError }

theorem third_party_config_and_upstream_witness :
    thirdPartyRun envHttp502 prefsNoEp 1 20 0
      = (Response.failure 400 "missing_third_party_endpoint", 0)
    ∧ thirdPartyRun env7 prefsEp 1 20 0
      = (Response.failure 500 "third_party_exception", 0)
    ∧ thirdPartyRun envHttp502 prefsEp 1 20 0
      = (Response.failure 502 "third_party_failed", 1)
    ∧ thirdPartyRun envNetErr prefsEp 1 20 0
      = (Response.failure 500 "third_party_exception", 1)
    ∧ (thirdPartyRun envNetErr prefsEp 1 20 0).2 ≤ 1 := by
  refine ⟨?_, ?_, ?_, ?_, ?_⟩
  · exact (third_party_config_and_upstream envHttp502 prefsNoEp 1 20 0).1 (Or.inl rfl)
  · exact (third_party_config_and_upstream env7 prefsEp 1 20 0).2.1
      "https://example.com/rank" rfl (by decide) rfl
  · exact (third_party_config_and_upstream envHttp502 prefsEp 1 20 0).2.2.1
      "https://example.com/rank" 503 rfl (by decide) rfl rfl
  · exact (third_party_config_and_upstream envNetErr prefsEp 1 20 0).2.2.2.1
      "https://example.com/rank" rfl (by decide) rfl rfl
  · exact (third_party_config_and_upstream envNetErr prefsEp 1 20 0).2.2.2.2

/-! ## C8 -/

/-- C8: each weight field of the stored record is parsed independently:
a malformed field falls back to its own default while every well-formed
field keeps its stored value, and the ranking computation proceeds with
the field-wise resolved weights. -/
theorem weight_fields_parsed_independently (p : PrefJson) (q : ℚ) :
    ((p.like_weight = some WeightVal.malformed →
        (resolveWeights (some p)).like_weight = 1)
      ∧ (p.like_weight = some (WeightVal.valid q) →
        (resolveWeights (some p)).like_weight = q))
    ∧ ((p.comment_weight = some WeightVal.malformed →
        (resolveWeights (some p)).comment_weight = 1/2)
      ∧ (p.comment_weight = some (WeightVal.valid q) →
        (resolveWeights (some p)).comment_weight = q))
    ∧ ((p.follower_weight = some WeightVal.malformed →
        (resolveWeights (some p)).follower_weight = 1)
      ∧ (p.follower_weight = some (WeightVal.valid q) →
        (resolveWeights (some p)).follower_weight = q))
    ∧ ((p.recency_weight = some WeightVal.malformed →
        (resolveWeights (some p)).recency_weight = 1)
      ∧ (p.recency_weight = some (WeightVal.valid q) →
        (resolveWeights (some p)).recency_weight = q))
    ∧ (∀ (db : DB) (now : ℚ) (uid : UserId) (L O : Int) (pr : PrefJson),
        prefsOf db uid = some pr →
        get_custom_ranked_feed db now uid L O
          = customPage db uid (resolveWeights (some pr)) now L O) := by
  refine ⟨⟨?_, ?_⟩, ⟨?_, ?_⟩, ⟨?_, ?_⟩, ⟨?_, ?_⟩, ?_⟩
  all_goals
    first
    | (intro h; simp [resolveWeights, parseWeight, h])
    | (intro db now uid L O pr h
       unfold get_custom_ranked_feed
       rw [h])

/-- A record with one malformed field among well-formed ones. -/
def c8prefs : PrefJson :=
  { algorithm_id := some "custom", like_weight := some (WeightVal.valid 2),
    comment_weight := some WeightVal.malformed,
    follower_weight := some (WeightVal.valid 3),
    recency_weight := none, third_party_endpoint := none }

def c8db : DB :=
  { posts := [⟨1, 2, none, 0⟩], likes := [], comments := [], follows := [],
    media := [], user_feed_preferences := [(5, c8prefs)] }

theorem weight_fields_parsed_independently_witness :
    ((resolveWeights (some c8prefs)).comment_weight = 1/2
      ∧ (resolveWeights (some c8prefs)).like_weight = 2
      ∧ (resolveWeights (some c8prefs)).follower_weight = 3)
    ∧ get_custom_ranked_feed c8db 0 5 20 0
        = customPage c8db 5 (resolveWeights (some c8prefs)) 0 20 0 := by
  refine ⟨⟨?_, ?_, ?_⟩, ?_⟩
  · exact (weight_fields_parsed_independently c8prefs 0).2.1.1 rfl
  · exact (weight_fields_parsed_independently c8prefs 2).1.2 rfl
  · exact (weight_fields_parsed_independently c8prefs 3).2.2.1.2 rfl
  · exact (weight_fields_parsed_independently c8prefs 0).2.2.2.2
      c8db 0 5 20 0 c8prefs rfl

/-! ## C9 -/

def req9 : FeedRequest :=
  { method := "GET", qLimit := none, qOffset := none, bodyOk := true,
    bodyLimit := some 5, bodyOffset := some 7, authUser := some 1 }

/-- Refutes C9 as stated: the handler reads the body only when the
method is not GET, so a GET request carrying numeric body limit/offset
has them ignored in favour of the query parameters (and their defaults). -/
theorem body_window_ignored_for_get :
    req9.bodyOk = true ∧ req9.bodyLimit = some 5 ∧ req9.bodyOffset = some 7
    ∧ effectiveLimit req9 = 20 ∧ effectiveLimit req9 ≠ 5
    ∧ effectiveOffset req9 = 0 ∧ effectiveOffset req9 ≠ 7 := by
  refine ⟨rfl, rfl, rfl, by decide, by decide, by decide, by decide⟩

/-- C9 (amended): the page window may come from query parameters or,
for non-GET requests with a parseable body, from numeric body fields,
which then take effect over the query values; for GET requests (or an
unreadable body) the query parameters alone are used. -/
theorem window_parameters_resolution (r : FeedRequest) (n m : Int) :
    (r.method ≠ "GET" → r.bodyOk = true → r.bodyLimit = some n →
      effectiveLimit r = max n 0)
    ∧ (r.method ≠ "GET" → r.bodyOk = true → r.bodyOffset = some m →
      effectiveOffset r = max m 0)
    ∧ (r.bodyLimit = none → r.qLimit = some n → effectiveLimit r = max n 0)
    ∧ (r.bodyOffset = none → r.qOffset = some m → effectiveOffset r = max m 0) := by
  refine ⟨?_, ?_, ?_, ?_⟩
  · intro hm hb hl
    simp [effectiveLimit, hm, hb, hl]
  · intro hm hb ho
    simp [effectiveOffset, hm, hb, ho]
  · intro hl hq
    unfold effectiveLimit
    rw [hl, hq]
    split <;> rfl
  · intro ho hq
    unfold effectiveOffset
    rw [ho, hq]
    split <;> rfl

def req9b : FeedRequest :=
  { method := "POST", qLimit := some 3, qOffset := some 4, bodyOk := true,
    bodyLimit := some 5, bodyOffset := some 7, authUser := some 1 }

def req9c : FeedRequest :=
  { method := "GET", qLimit := some 3, qOffset := some 4, bodyOk := false,
    bodyLimit := none, bodyOffset := none, authUser := some 1 }

theorem window_parameters_resolution_witness :
    effectiveLimit req9b = max 5 0
    ∧ effectiveOffset req9b = max 7 0
    ∧ effectiveLimit req9c = max 3 0
    ∧ effectiveOffset req9c = max 4 0 := by
  refine ⟨?_, ?_, ?_, ?_⟩
  · exact (window_parameters_resolution req9b 5 7).1 (by decide) rfl rfl
  · exact (window_parameters_resolution req9b 5 7).2.1 (by decide) rfl rfl
  · exact (window_parameters_resolution req9c 3 4).2.2.1 rfl rfl
  · exact (window_parameters_resolution req9c 3 4).2.2.2 rfl rfl

/-! ## C10 -/

/-- C10: a request supplying no limit parameter in query or body gets
limit 20 (the `?? "20"` query default), and one supplying no offset gets
offset 0. -/
theorem default_page_window (r : FeedRequest) :
    (r.qLimit = none → r.bodyLimit = none → effectiveLimit r = 20)
    ∧ (r.qOffset = none → r.bodyOffset = none → effectiveOffset r = 0) := by
  constructor
  · intro hq hb
    unfold effectiveLimit
    rw [hq, hb]
    split <;> rfl
  · intro hq hb
    unfold effectiveOffset
    rw [hq, hb]
    split <;> rfl

def req10 : FeedRequest :=
  { method := "POST", qLimit := none, qOffset := none, bodyOk := true,
    bodyLimit := none, bodyOffset := none, authUser := some 1 }

theorem default_page_window_witness :
    effectiveLimit req10 = 20 ∧ effectiveOffset req10 = 0 :=
  ⟨(default_page_window req10).1 rfl rfl, (default_page_window req10).2 rfl rfl⟩

end Feed
